import Mathlib

/-!
Shallow embedding of the tls-api certificate/key materials layer
(`api/src/cert.rs`) and of the rustls-backed connector and acceptor
(`impl-rustls/src/lib.rs`), together with theorems settling the
specification's claims about them.

Byte sequences are `List Nat` (each element a byte value); Rust's
`crate::Result<T>` is `Except String T`, carrying the error message passed
to `Error::new_other`.
-/

namespace TlsApi

/-- One PEM entry as produced by the external `pem` crate: a tag such as
"CERTIFICATE" and the decoded DER contents. -/
structure Pem where
  tag : String
  contents : List Nat
deriving DecidableEq

/-- Modelled from the spec: a PEM text buffer as seen through the external
`pem` crate ("base64 blocks framed by `-----BEGIN <TAG>-----` /
`-----END <TAG>-----`").  The buffer is represented by its raw bytes
together with the list of entries `pem::parse_many` extracts from those
bytes; the code under verification consumes a buffer only through
`pem::parse_many` and through the raw leading byte. -/
structure PemBuffer where
  raw : List Nat
  entries : List Pem
deriving DecidableEq

/-- Modelled from the spec: `pem::parse_many` returns every PEM entry found
in the buffer, in order. -/
def parse_many (buf : PemBuffer) : List Pem := buf.entries

/-- The base64 alphabet used for PEM bodies. -/
def base64Alphabet : List Char :=
  "ABCDEFGHIJKLMNOPQRSTUVWXYZabcdefghijklmnopqrstuvwxyz0123456789+/".toList

/-- The base64 digit for a 6-bit value. -/
def base64Digit (n : Nat) : Char := base64Alphabet.getD n 'A'

/-- Modelled from the spec: base64 rendering of a byte sequence, three bytes
to four digits with `=` padding. -/
def base64Encode : List Nat → List Char
  | [] => []
  | [a] => [base64Digit (a / 4 % 64), base64Digit (a % 4 * 16), '=', '=']
  | [a, b] => [base64Digit (a / 4 % 64), base64Digit (a % 4 * 16 + b / 16 % 16),
      base64Digit (b % 16 * 4), '=']
  | a :: b :: c :: rest =>
      base64Digit (a / 4 % 64) :: base64Digit (a % 4 * 16 + b / 16 % 16) ::
      base64Digit (b % 16 * 4 + c / 64 % 4) :: base64Digit (c % 64) :: base64Encode rest

/-- The bytes of a string, for PEM framing lines. -/
def strBytes (s : String) : List Nat := s.toList.map Char.toNat

/-- Modelled from the spec: `pem::encode` renders one entry as a
`-----BEGIN <TAG>-----` line, the base64 body and an `-----END <TAG>-----`
line (the 64-column line wrapping of the body is not reproduced: the code
under verification inspects only the leading raw byte); parsing the rendered
text back yields exactly the given entry. -/
def pemEncode (p : Pem) : PemBuffer :=
  { raw := strBytes ("-----BEGIN " ++ p.tag ++ "-----\r\n")
        ++ (base64Encode p.contents).map Char.toNat
        ++ strBytes ("\r\n-----END " ++ p.tag ++ "-----\r\n"),
    entries := [p] }

/-- Rust's `collect::<Result<Vec<_>, _>>()`: the list of all successes, or
the first error. -/
def collectResults {α : Type} : List (Except String α) → Except String (List α)
  | [] => .ok []
  | .error e :: _ => .error e
  | .ok a :: rest => (collectResults rest).map (a :: ·)

/-- DER-encoded X.509 certificate (struct `Cert` in `api/src/cert.rs`). -/
structure Cert where
  der : List Nat
deriving DecidableEq

/-- Rust `Cert::looks_like_der`: `bytes.starts_with(b"\x30")` — the first
byte is the ASN.1 SEQUENCE tag 0x30. -/
def Cert.looks_like_der : List Nat → Bool
  | b :: _ => b == 0x30
  | [] => false

/-- Rust `Cert::from_der`. -/
def Cert.from_der (cert_der : List Nat) : Except String Cert :=
  if ¬ Cert.looks_like_der cert_der then
    .error "not a DER-encoded certificate"
  else
    .ok ⟨cert_der⟩

/-- Rust `Cert::from_pem`: all entries tagged "CERTIFICATE" are fed through
`Cert::from_der` and collected (the first `from_der` error short-circuits);
then one certificate succeeds, and the zero/many cases pick the diagnostic. -/
def Cert.from_pem (cert_der_pem : PemBuffer) : Except String Cert :=
  let pem := parse_many cert_der_pem
  let count := pem.length
  match collectResults ((pem.filterMap fun p =>
      if p.tag = "CERTIFICATE" then some p.contents else none).map Cert.from_der) with
  | .error e => .error e
  | .ok certs =>
    match certs with
    | [c] => .ok c
    | _ :: _ :: _ => .error "PEM file contains \x7b\x7d certificates"
    | [] =>
      if count ≠ 0 then
        .error "PEM file contains \x7b\x7d entries, but no certificates"
      else if Cert.looks_like_der cert_der_pem.raw then
        .error "PEM file looks like a DER file"
      else
        .error "no certificates found in a PEM file"

/-- Rust `Cert::get_der`. -/
def Cert.get_der (c : Cert) : List Nat := c.der

/-- Rust `Cert::to_pem`: encode the DER under tag "CERTIFICATE". -/
def Cert.to_pem (c : Cert) : PemBuffer :=
  pemEncode ⟨"CERTIFICATE", c.der⟩

/-- DER-encoded private key (struct `PrivateKey` in `api/src/cert.rs`). -/
structure PrivateKey where
  der : List Nat
deriving DecidableEq

/-- Rust `PrivateKey::looks_like_der`. -/
def PrivateKey.looks_like_der : List Nat → Bool
  | b :: _ => b == 0x30
  | [] => false

/-- Rust `PrivateKey::from_der`: rejects only an empty key. -/
def PrivateKey.from_der (key_der : List Nat) : Except String PrivateKey :=
  if key_der.isEmpty then
    .error "empty private key"
  else
    .ok ⟨key_der⟩

/-- Rust `PrivateKey::from_pem`: same shape as `Cert::from_pem`, matching
tags "PRIVATE KEY" and "RSA PRIVATE KEY". -/
def PrivateKey.from_pem (key_pem : PemBuffer) : Except String PrivateKey :=
  let pem := parse_many key_pem
  let count := pem.length
  match collectResults ((pem.filterMap fun p =>
      if p.tag = "PRIVATE KEY" ∨ p.tag = "RSA PRIVATE KEY" then some p.contents
      else none).map PrivateKey.from_der) with
  | .error e => .error e
  | .ok keys =>
    match keys with
    | [k] => .ok k
    | _ :: _ :: _ => .error "PEM file contains \x7b\x7d private keys"
    | [] =>
      if count ≠ 0 then
        .error "PEM file contains \x7b\x7d entries, but no private keys"
      else if PrivateKey.looks_like_der key_pem.raw then
        .error "PEM file looks like a DER file"
      else
        .error "no private keys found in a PEM file"

/-- Rust `PrivateKey::get_der`. -/
def PrivateKey.get_der (k : PrivateKey) : List Nat := k.der

/-- Rust `PrivateKey::to_pem_incorrect`: encode the DER under tag
"RSA PRIVATE KEY" without checking that the key is RSA. -/
def PrivateKey.to_pem_incorrect (k : PrivateKey) : PemBuffer :=
  pemEncode ⟨"RSA PRIVATE KEY", k.der⟩

/-- Rust `pem_to_cert_key_pair`: exactly two PEM entries, then two
independent full re-parses. -/
def pem_to_cert_key_pair (pem : PemBuffer) : Except String (Cert × PrivateKey) :=
  let entries := parse_many pem
  if entries.length ≠ 2 then
    .error ("PEM file should contain certificate and private key entries, got "
      ++ toString entries.length ++ " entries")
  else do
    let cert ← Cert.from_pem pem
    let key ← PrivateKey.from_pem pem
    pure (cert, key)

/-- Modelled from the spec: the certificate verifier held by a rustls client
configuration — either the default chain-and-hostname verifier, or the
permissive `NoCertificateVerifier` installed by the insecure escape hatch
(`set_verify_hostname(false)`), which accepts any server certificate. -/
inductive CertVerifier where
  | webpkiDefault
  | noCertificateVerifier
deriving DecidableEq

/-- Modelled from the spec: the pieces of `rustls::ClientConfig` the crate
touches — the ordered ALPN list, the trust-root store, and the certificate
verifier. -/
structure ClientConfig where
  alpn_protocols : List (List Nat)
  root_store : List (List Nat)
  verifier : CertVerifier
deriving DecidableEq

/-- Modelled from the spec: `rustls::ClientConfig::new()` — no ALPN
protocols, an empty root store, the default verifier. -/
def ClientConfig.new : ClientConfig :=
  { alpn_protocols := [], root_store := [], verifier := .webpkiDefault }

/-- Reference-counted shared ownership (`std::sync::Arc`): the wrapped
configuration is immutable and shared read-only. -/
structure Arc (α : Type) where
  value : α
deriving DecidableEq

/-- Struct `TlsConnectorBuilder` of `impl-rustls/src/lib.rs`: a mutable
client configuration plus the `verify_hostname` flag. -/
structure TlsConnectorBuilder where
  config : ClientConfig
  verify_hostname : Bool
deriving DecidableEq

/-- Struct `TlsConnector` of `impl-rustls/src/lib.rs`. -/
structure TlsConnector where
  config : Arc ClientConfig
deriving DecidableEq

/-- Rust `TlsConnector::builder()`: fresh configuration, hostname
verification on. -/
def TlsConnector.builder : TlsConnectorBuilder :=
  { config := ClientConfig.new, verify_hostname := true }

/-- Rust `TlsConnectorBuilder::set_verify_hostname`, as a state
transformer: the returned `Result<()>` paired with the builder after the
call. -/
def TlsConnectorBuilder.set_verify_hostname (b : TlsConnectorBuilder) (verify : Bool) :
    Except String Unit × TlsConnectorBuilder :=
  if ¬ verify then
    (.ok (), { b with
      config := { b.config with verifier := .noCertificateVerifier },
      verify_hostname := false })
  else if ¬ b.verify_hostname then
    (.error "cannot set_verify_hostname(true) after set_verify_hostname(false)", b)
  else
    (.ok (), b)

/-- Rust `TlsConnectorBuilder::set_alpn_protocols`. -/
def TlsConnectorBuilder.set_alpn_protocols (b : TlsConnectorBuilder)
    (protocols : List (List Nat)) : Except String Unit × TlsConnectorBuilder :=
  (.ok (), { b with config := { b.config with alpn_protocols := protocols } })

/-- Modelled from the spec: the bundled default root set
(`webpki_roots::TLS_SERVER_ROOTS`), a fixed non-empty list of trust anchors
whose exact contents the code under verification never inspects. -/
def TLS_SERVER_ROOTS : List (List Nat) :=
  [[0x30, 0x82, 0x01], [0x30, 0x82, 0x02]]

/-- Modelled from the spec: `RootCertStore::add_server_trust_anchors`
appends the given anchors to the store. -/
def addServerTrustAnchors (store : List (List Nat)) : List (List Nat) :=
  store ++ TLS_SERVER_ROOTS

/-- Rust `TlsConnectorBuilder::build`: install the bundled default roots
when the trust store is empty, then wrap the configuration in an `Arc`. -/
def TlsConnectorBuilder.build (b : TlsConnectorBuilder) : Except String TlsConnector :=
  let config :=
    if b.config.root_store.isEmpty then
      { b.config with root_store := addServerTrustAnchors b.config.root_store }
    else b.config
  .ok { config := Arc.mk config }

/-- Modelled from the spec: the pieces of `rustls::ServerConfig` the crate
touches. -/
structure ServerConfig where
  alpn_protocols : List (List Nat)
  cert_chain : List (List Nat)
  private_key : List Nat
deriving DecidableEq

/-- Struct `TlsAcceptor` of `impl-rustls/src/lib.rs`. -/
structure TlsAcceptor where
  config : Arc ServerConfig
deriving DecidableEq

/-- Modelled from the spec: one character of a well-formed host-name label —
an ASCII letter, a digit, or a hyphen. -/
def validDnsChar (c : Char) : Bool :=
  c.isAlpha || c.isDigit || c == '-'

/-- Modelled from the spec: a well-formed host-name label is non-empty,
made of letters, digits and hyphens, and neither starts nor ends with a
hyphen. -/
def validLabel (l : List Char) : Bool :=
  !l.isEmpty && l.all validDnsChar && l.head? != some '-' && l.getLast? != some '-'

/-- Split a character sequence at every dot; a trailing or leading dot, or
two in a row, produces an empty label. -/
def splitLabels : List Char → List (List Char)
  | [] => [[]]
  | c :: rest =>
    if c == '.' then
      [] :: splitLabels rest
    else
      match splitLabels rest with
      | l :: ls => (c :: l) :: ls
      | [] => [[c]]

/-- Modelled from the spec: `webpki::DNSNameRef::try_from_ascii_str` as a
syntactic well-formedness test of a host name — a sequence of well-formed
labels separated by dots (the empty string splits into one empty label and
so is rejected). -/
def try_from_ascii_str (domain : String) : Bool :=
  (splitLabels domain.toList).all validLabel

/-- Modelled from the spec: `rustls::ClientSession::new(config, dns_name)` —
a fresh per-connection engine session bound to the shared configuration and
the validated name. -/
structure ClientSession where
  config : Arc ClientConfig
  dns_name : String
deriving DecidableEq

/-- Modelled from the spec: `rustls::ServerSession::new(config)`. -/
structure ServerSession where
  config : Arc ServerConfig
deriving DecidableEq

/-- An engine session of either role. -/
inductive Session where
  | client (s : ClientSession)
  | server (s : ServerSession)
deriving DecidableEq

/-- Struct `TlsStream` of `impl-rustls`: the transport wrapped by the
sync-over-async bridge (`AsyncIoAsSyncIo`), plus the engine session. -/
structure TlsStream (S : Type) where
  stream : S
  session : Session
deriving DecidableEq

/-- Enum `HandshakeFuture`: the pending handshake driver returned by
`connect` and `accept`; both entry points construct it in the
`MidHandshake` state. -/
inductive HandshakeFuture (S : Type) where
  | midHandshake (s : TlsStream S)
deriving DecidableEq

/-- Rust `TlsConnector::connect`, observed at the point the returned future
first resolves or is pending: an ill-formed domain yields an immediate
error (the `Except.error` branch carries no engine session), a well-formed
one a pending handshake over a fresh client session bound to the shared
configuration and the name. -/
def TlsConnector.connect {S : Type} (c : TlsConnector) (domain : String) (stream : S) :
    Except String (HandshakeFuture S) :=
  if try_from_ascii_str domain then
    let tls_stream : TlsStream S :=
      { stream := stream,
        session := .client { config := c.config, dns_name := domain } }
    .ok (.midHandshake tls_stream)
  else
    .error "invalid dns name"

/-- Rust `TlsAcceptor::accept`: no name validation; always a pending
handshake over a fresh server session. -/
def TlsAcceptor.accept {S : Type} (a : TlsAcceptor) (stream : S) :
    Except String (HandshakeFuture S) :=
  let tls_stream : TlsStream S :=
    { stream := stream, session := .server { config := a.config } }
  .ok (.midHandshake tls_stream)

/-! Spec-side descriptions of the PEM parsers, used to state the amended
claim C1 as a refinement: first the DER pre-check of every tagged block,
then the four-way diagnostic priority of the spec. -/

/-- The amended specification of `Cert::from_pem`: if some block tagged
"CERTIFICATE" has contents failing the DER leading-byte check, that
`from_der` error is reported; otherwise exactly one tagged block succeeds
with that certificate, and the zero/many cases follow the spec's four-way
diagnostic priority. -/
def certFromPemSpec (buf : PemBuffer) : Except String Cert :=
  let tagged := (parse_many buf).filterMap fun p =>
    if p.tag = "CERTIFICATE" then some p.contents else none
  if tagged.any (fun c => ! Cert.looks_like_der c) then
    .error "not a DER-encoded certificate"
  else
    match tagged with
    | [c] => .ok ⟨c⟩
    | _ :: _ :: _ => .error "PEM file contains \x7b\x7d certificates"
    | [] =>
      if (parse_many buf).length ≠ 0 then
        .error "PEM file contains \x7b\x7d entries, but no certificates"
      else if Cert.looks_like_der buf.raw then
        .error "PEM file looks like a DER file"
      else
        .error "no certificates found in a PEM file"

/-- The amended specification of `PrivateKey::from_pem`: as
`certFromPemSpec`, with tags "PRIVATE KEY" and "RSA PRIVATE KEY" and with
emptiness as the only per-block check. -/
def keyFromPemSpec (buf : PemBuffer) : Except String PrivateKey :=
  let tagged := (parse_many buf).filterMap fun p =>
    if p.tag = "PRIVATE KEY" ∨ p.tag = "RSA PRIVATE KEY" then some p.contents else none
  if tagged.any (fun c => c.isEmpty) then
    .error "empty private key"
  else
    match tagged with
    | [k] => .ok ⟨k⟩
    | _ :: _ :: _ => .error "PEM file contains \x7b\x7d private keys"
    | [] =>
      if (parse_many buf).length ≠ 0 then
        .error "PEM file contains \x7b\x7d entries, but no private keys"
      else if PrivateKey.looks_like_der buf.raw then
        .error "PEM file looks like a DER file"
      else
        .error "no private keys found in a PEM file"

/-- Unfold the leading-byte check to a statement about `head?`. -/
theorem cert_looks_like_der_iff (l : List Nat) :
    Cert.looks_like_der l = true ↔ l.head? = some 0x30 := by
  cases l <;> simp [Cert.looks_like_der]

/-- Collecting the `Cert::from_der` of a list of contents gives the first
DER-check failure, or all the wrapped certificates. -/
theorem collect_cert_from_der (l : List (List Nat)) :
    collectResults (l.map Cert.from_der)
      = if l.any (fun c => ! Cert.looks_like_der c) then
          Except.error "not a DER-encoded certificate"
        else Except.ok (l.map Cert.mk) := by
  induction l with
  | nil => rfl
  | cons a t ih =>
    by_cases h : Cert.looks_like_der a
    · by_cases h2 : t.any (fun c => ! Cert.looks_like_der c) <;>
        simp [collectResults, Cert.from_der, h, h2, ih, Except.map]
    · simp [collectResults, Cert.from_der, h]

/-- Collecting the `PrivateKey::from_der` of a list of contents gives the
first emptiness failure, or all the wrapped keys. -/
theorem collect_key_from_der (l : List (List Nat)) :
    collectResults (l.map PrivateKey.from_der)
      = if l.any (fun c => c.isEmpty) then
          Except.error "empty private key"
        else Except.ok (l.map PrivateKey.mk) := by
  induction l with
  | nil => rfl
  | cons a t ih =>
    by_cases h : a.isEmpty
    · simp [collectResults, PrivateKey.from_der, h]
    · by_cases h2 : t.any (fun c => c.isEmpty) <;>
        simp [collectResults, PrivateKey.from_der, h, h2, ih, Except.map]

/-- `Cert::from_pem` computes exactly the amended four-way specification. -/
theorem cert_from_pem_spec_eq (buf : PemBuffer) :
    Cert.from_pem buf = certFromPemSpec buf := by
  simp only [Cert.from_pem, certFromPemSpec, collect_cert_from_der]
  by_cases h : ((parse_many buf).filterMap fun p =>
      if p.tag = "CERTIFICATE" then some p.contents else none).any
      (fun c => ! Cert.looks_like_der c)
  · simp [h]
  · simp only [h, if_false]
    cases hl : (parse_many buf).filterMap fun p =>
        if p.tag = "CERTIFICATE" then some p.contents else none with
    | nil => simp
    | cons a t => cases t <;> simp

/-- `PrivateKey::from_pem` computes exactly the amended four-way
specification. -/
theorem key_from_pem_spec_eq (buf : PemBuffer) :
    PrivateKey.from_pem buf = keyFromPemSpec buf := by
  simp only [PrivateKey.from_pem, keyFromPemSpec, collect_key_from_der]
  by_cases h : ((parse_many buf).filterMap fun p =>
      if p.tag = "PRIVATE KEY" ∨ p.tag = "RSA PRIVATE KEY" then some p.contents
      else none).any (fun c => c.isEmpty)
  · simp [h]
  · simp only [h, if_false]
    cases hl : (parse_many buf).filterMap fun p =>
        if p.tag = "PRIVATE KEY" ∨ p.tag = "RSA PRIVATE KEY" then some p.contents
        else none with
    | nil => simp
    | cons a t => cases t <;> simp

/-- A list whose head is known is not empty. -/
theorem head_some_ne_nil {l : List Nat} {x : Nat} (h : l.head? = some x) : l ≠ [] := by
  cases l <;> simp_all

/-- A successful `certFromPemSpec` returns a certificate passing the DER
leading-byte check. -/
theorem certFromPemSpec_ok_looks (buf : PemBuffer) (c : Cert)
    (h : certFromPemSpec buf = .ok c) : Cert.looks_like_der c.der = true := by
  by_cases ha : ((parse_many buf).filterMap fun p =>
      if p.tag = "CERTIFICATE" then some p.contents else none).any
      (fun x => ! Cert.looks_like_der x)
  · simp [certFromPemSpec, ha] at h
  · rcases hl : (parse_many buf).filterMap fun p =>
        if p.tag = "CERTIFICATE" then some p.contents else none with _ | ⟨a, _ | ⟨b, t⟩⟩
    · simp only [certFromPemSpec, ha, hl, if_false, Bool.false_eq_true] at h
      split at h
      all_goals try split at h
      all_goals try split at h
      all_goals exact Except.noConfusion h
    · have hla : Cert.looks_like_der a = true := by
        have := List.any_eq_false.mp (Bool.eq_false_iff.mpr ha) a (by simp [hl])
        simpa using this
      simp only [certFromPemSpec, ha, hl, if_false, Bool.false_eq_true] at h
      rw [if_neg (by simp [hla])] at h
      injection h with h
      rw [← h]
      exact hla
    · simp only [certFromPemSpec, ha, hl, if_false, Bool.false_eq_true] at h
      split at h
      all_goals exact Except.noConfusion h

/-! Claim C1 (corrected). -/

/-- Claim C1, counterexample: a buffer containing exactly one PEM block
tagged "CERTIFICATE" on which `Cert::from_pem` nevertheless fails, because
the block's contents do not pass the DER leading-byte check — refuting
"from_pem succeeds exactly when the buffer contains exactly one PEM block
tagged CERTIFICATE". -/
theorem c1_counterexample :
    ((parse_many ⟨[], [⟨"CERTIFICATE", [1]⟩]⟩).countP
        (fun p => p.tag == "CERTIFICATE")) = 1
    ∧ Cert.from_pem ⟨[], [⟨"CERTIFICATE", [1]⟩]⟩
        = .error "not a DER-encoded certificate" := by
  constructor
  · rfl
  · rfl

/-- Claim C1 (amended): `Cert::from_pem` first feeds every block tagged
"CERTIFICATE" through the DER leading-byte check, reporting that failure
ahead of everything else; when every tagged block passes, it succeeds
exactly on one tagged block, and otherwise fails with the four-way
diagnostic priority (many → ambiguous; none with other entries → entries
but no certificates; no entries with DER-looking raw buffer → looks like
DER; otherwise → none found).  `PrivateKey::from_pem` follows the same
policy for tags "PRIVATE KEY" and "RSA PRIVATE KEY" with emptiness as the
per-block check. -/
theorem c1_from_pem_four_way (buf : PemBuffer) :
    Cert.from_pem buf = certFromPemSpec buf
    ∧ PrivateKey.from_pem buf = keyFromPemSpec buf :=
  ⟨cert_from_pem_spec_eq buf, key_from_pem_spec_eq buf⟩

/-! Claim C2 (corrected). -/

/-- Claim C2, counterexample: `PrivateKey::from_der` accepts a byte
sequence whose first byte is not 0x30 — refuting "PrivateKey::from_der(b)
returns an error whenever the first byte of b is not 0x30". -/
theorem c2_counterexample :
    PrivateKey.from_der [1] = .ok ⟨[1]⟩ ∧ ([1] : List Nat).head? ≠ some 0x30 := by
  exact ⟨rfl, by decide⟩

/-- Claim C2 (amended): `Cert::from_der` fails exactly when the first byte
is not 0x30; `PrivateKey::from_der` fails exactly when the input is empty
(it performs no leading-byte check); each succeeds otherwise, wrapping the
bytes unchanged. -/
theorem c2_from_der_checks (b : List Nat) :
    Cert.from_der b
      = (if b.head? = some 0x30 then Except.ok ⟨b⟩
          else Except.error "not a DER-encoded certificate")
    ∧ PrivateKey.from_der b
      = (if b = [] then Except.error "empty private key" else Except.ok ⟨b⟩) := by
  constructor
  · by_cases h : b.head? = some 0x30 <;>
      simp [Cert.from_der, cert_looks_like_der_iff, h]
  · cases b <;> simp [PrivateKey.from_der]

/-! Claim C3 (confirmed). -/

/-- Claim C3: for every valid certificate (the `Cert` invariant: DER
starting with 0x30) the `to_pem`/`from_pem` round trip returns the same
certificate, and for every valid private key (non-empty DER) the
`to_pem_incorrect`/`from_pem` round trip returns the same key. -/
theorem c3_pem_roundtrip (c : Cert) (k : PrivateKey)
    (hc : c.der.head? = some 0x30) (hk : k.der ≠ []) :
    Cert.from_pem c.to_pem = .ok c
    ∧ PrivateKey.from_pem k.to_pem_incorrect = .ok k := by
  constructor
  · have hl : Cert.looks_like_der c.der = true := (cert_looks_like_der_iff _).2 hc
    simp [Cert.from_pem, Cert.to_pem, pemEncode, parse_many, collectResults,
      Cert.from_der, hl, Except.map]
  · have hke : k.der.isEmpty = false := by
      cases hkd : k.der with
      | nil => exact absurd hkd hk
      | cons x t => rfl
    simp [PrivateKey.from_pem, PrivateKey.to_pem_incorrect, pemEncode, parse_many,
      collectResults, PrivateKey.from_der, hke, Except.map]

/-- Claim C3, witness: the round trips evaluated on a concrete valid
certificate and key. -/
theorem c3_pem_roundtrip_witness :
    Cert.from_pem (Cert.to_pem ⟨[0x30]⟩) = .ok ⟨[0x30]⟩
    ∧ PrivateKey.from_pem (PrivateKey.to_pem_incorrect ⟨[1]⟩) = .ok ⟨[1]⟩ :=
  c3_pem_roundtrip ⟨[0x30]⟩ ⟨[1]⟩ rfl (by decide)

/-! Claim C4 (confirmed). -/

/-- Claim C4: `pem_to_cert_key_pair` fails whenever the buffer's total
PEM-entry count differs from 2 — in particular on a buffer holding a valid
certificate and a valid key among three entries — and on a count of exactly
2 it returns the pair produced by the two independent full re-parses,
failing if either sub-parse fails. -/
theorem c4_pair_requires_two_entries (buf : PemBuffer) :
    ((parse_many buf).length ≠ 2 →
      pem_to_cert_key_pair buf
        = .error ("PEM file should contain certificate and private key entries, got "
            ++ toString (parse_many buf).length ++ " entries"))
    ∧ ((parse_many buf).length = 2 →
      pem_to_cert_key_pair buf
        = do
            let cert ← Cert.from_pem buf
            let key ← PrivateKey.from_pem buf
            pure (cert, key))
    ∧ pem_to_cert_key_pair
        ⟨[], [⟨"CERTIFICATE", [0x30]⟩, ⟨"RSA PRIVATE KEY", [1]⟩, ⟨"CERTIFICATE", [0x30]⟩]⟩
        = .error "PEM file should contain certificate and private key entries, got 3 entries" := by
  refine ⟨fun h => ?_, fun h => ?_, rfl⟩
  · simp [pem_to_cert_key_pair, h]
  · simp [pem_to_cert_key_pair, h]

/-! Claim C8 (confirmed). -/

/-- Claim C8: every certificate produced by the public constructors
`Cert::from_der` and `Cert::from_pem` has 0x30 as its first DER byte and is
in particular non-empty. -/
theorem c8_cert_invariant (bytes : List Nat) (buf : PemBuffer) :
    (∀ c : Cert, Cert.from_der bytes = .ok c → c.der.head? = some 0x30 ∧ c.der ≠ [])
    ∧ (∀ c : Cert, Cert.from_pem buf = .ok c → c.der.head? = some 0x30 ∧ c.der ≠ []) := by
  constructor
  · intro c h
    by_cases hb : Cert.looks_like_der bytes
    · simp only [Cert.from_der, hb, not_true_eq_false, if_false, Except.ok.injEq] at h
      rw [← h]
      have := (cert_looks_like_der_iff bytes).1 hb
      exact ⟨this, head_some_ne_nil this⟩
    · simp [Cert.from_der, hb] at h
  · intro c h
    rw [cert_from_pem_spec_eq] at h
    have := (cert_looks_like_der_iff c.der).1 (certFromPemSpec_ok_looks buf c h)
    exact ⟨this, head_some_ne_nil this⟩

/-- On a two-entry buffer, `Cert::from_pem` is insensitive to the order of
the entries (and to the raw bytes, which a two-entry buffer never
consults). -/
theorem cert_from_pem_swap (raw raw' : List Nat) (e1 e2 : Pem) :
    Cert.from_pem ⟨raw, [e1, e2]⟩ = Cert.from_pem ⟨raw', [e2, e1]⟩ := by
  rw [cert_from_pem_spec_eq, cert_from_pem_spec_eq]
  by_cases t1 : e1.tag = "CERTIFICATE" <;> by_cases t2 : e2.tag = "CERTIFICATE" <;>
    simp [certFromPemSpec, parse_many, t1, t2]
  by_cases l1 : Cert.looks_like_der e1.contents <;>
    by_cases l2 : Cert.looks_like_der e2.contents <;> simp [l1, l2]

/-- On a two-entry buffer, `PrivateKey::from_pem` is insensitive to the
order of the entries. -/
theorem key_from_pem_swap (raw raw' : List Nat) (e1 e2 : Pem) :
    PrivateKey.from_pem ⟨raw, [e1, e2]⟩ = PrivateKey.from_pem ⟨raw', [e2, e1]⟩ := by
  rw [key_from_pem_spec_eq, key_from_pem_spec_eq]
  by_cases t1 : e1.tag = "PRIVATE KEY" ∨ e1.tag = "RSA PRIVATE KEY" <;>
    by_cases t2 : e2.tag = "PRIVATE KEY" ∨ e2.tag = "RSA PRIVATE KEY" <;>
    simp [keyFromPemSpec, parse_many, t1, t2]
  simp [or_comm]

/-! Claim C9 (confirmed). -/

/-- Claim C9: on a buffer with exactly two PEM entries,
`pem_to_cert_key_pair` is insensitive to the order of the two entries —
swapping them (which also changes the raw text) yields the same result,
because the certificate and the key are each extracted by an independent
full re-parse of the buffer rather than by position. -/
theorem c9_pair_order_insensitive (raw raw' : List Nat) (e1 e2 : Pem) :
    pem_to_cert_key_pair ⟨raw, [e1, e2]⟩ = pem_to_cert_key_pair ⟨raw', [e2, e1]⟩ := by
  simp only [pem_to_cert_key_pair, parse_many, List.length_cons, List.length_nil]
  rw [if_neg (by simp), if_neg (by simp)]
  rw [cert_from_pem_swap raw raw' e1 e2, key_from_pem_swap raw raw' e1 e2]

/-! Claim C5 (confirmed). -/

/-- Claim C5: once `set_verify_hostname(false)` has been called on a
connector builder, a later `set_verify_hostname(true)` returns a
ConfigError, leaves the builder unchanged, and the permissive
`NoCertificateVerifier` installed by the `false` call remains in effect —
the latch is one-way. -/
theorem c5_verify_hostname_one_way (b : TlsConnectorBuilder) :
    ((b.set_verify_hostname false).2.set_verify_hostname true).1
      = .error "cannot set_verify_hostname(true) after set_verify_hostname(false)"
    ∧ ((b.set_verify_hostname false).2.set_verify_hostname true).2
      = (b.set_verify_hostname false).2
    ∧ ((b.set_verify_hostname false).2.set_verify_hostname true).2.config.verifier
      = CertVerifier.noCertificateVerifier := by
  simp [TlsConnectorBuilder.set_verify_hostname]

/-! Claim C10 (confirmed). -/

/-- Claim C10: `set_verify_hostname(true)` on a builder whose verification
was never disabled returns Ok and leaves the builder — its configuration
and verifier included — completely unchanged; and a repeated
`set_verify_hostname(false)` succeeds again and leaves the builder in the
same disabled state a single call produces. -/
theorem c10_set_verify_hostname_frame (b : TlsConnectorBuilder) :
    (b.verify_hostname = true → b.set_verify_hostname true = (.ok (), b))
    ∧ (b.set_verify_hostname false).2.set_verify_hostname false
        = (.ok (), (b.set_verify_hostname false).2) := by
  constructor
  · intro h
    simp [TlsConnectorBuilder.set_verify_hostname, h]
  · simp [TlsConnectorBuilder.set_verify_hostname]

/-! Claim C7 (confirmed). -/

/-- Claim C7: at `build()` time an empty trust store is replaced by the
bundled default root set (every other configuration field kept), a
non-empty trust store is kept unchanged, and either way the finished
configuration is wrapped for shared read-only reference-counted
ownership. -/
theorem c7_build_default_roots (b : TlsConnectorBuilder) :
    (b.config.root_store = [] →
      b.build = .ok { config := Arc.mk { b.config with root_store := TLS_SERVER_ROOTS } })
    ∧ (b.config.root_store ≠ [] → b.build = .ok { config := Arc.mk b.config }) := by
  constructor
  · intro h
    simp [TlsConnectorBuilder.build, addServerTrustAnchors, h]
  · intro h
    cases hr : b.config.root_store with
    | nil => exact absurd hr h
    | cons x t => simp [TlsConnectorBuilder.build, hr]

/-- Claim C7, witness: `build()` evaluated on the fresh builder (empty
trust store) and on a builder with one root installed. -/
theorem c7_build_default_roots_witness :
    TlsConnector.builder.build
      = .ok { config := Arc.mk { ClientConfig.new with root_store := TLS_SERVER_ROOTS } }
    ∧ ({ config := { ClientConfig.new with root_store := [[0x30]] },
          verify_hostname := true } : TlsConnectorBuilder).build
      = .ok { config := Arc.mk { ClientConfig.new with root_store := [[0x30]] } } :=
  ⟨(c7_build_default_roots TlsConnector.builder).1 rfl,
    (c7_build_default_roots _).2 (by simp)⟩

/-! Claim C6 (confirmed). -/

/-- Claim C6: `connect(domain, transport)` resolves to an immediate error
for a syntactically ill-formed host name — the error branch carries no
engine session — and for a well-formed one returns a pending handshake
holding a freshly constructed client session bound to the shared
configuration and that name; `accept(transport)` performs no name
validation and always returns a pending handshake over a fresh server
session. -/
theorem c6_connect_validates_domain {S : Type} (c : TlsConnector) (a : TlsAcceptor)
    (domain : String) (s : S) :
    (try_from_ascii_str domain = false → c.connect domain s = .error "invalid dns name")
    ∧ (try_from_ascii_str domain = true →
        c.connect domain s
          = .ok (.midHandshake ⟨s, .client ⟨c.config, domain⟩⟩))
    ∧ a.accept s = .ok (.midHandshake ⟨s, .server ⟨a.config⟩⟩) := by
  refine ⟨fun h => ?_, fun h => ?_, rfl⟩
  · simp [TlsConnector.connect, h]
  · simp [TlsConnector.connect, h]

end TlsApi
